import Mathlib

/-!
Shallow embedding of the multi-tenant OAuth credential lifecycle and connector
layer of `unified_connector_backend` (the `src/` snapshot is authoritative):

* `src/core/response.py`  — unified success/error payloads and upstream-error
  normalization (`error_payload`, `_is_rate_limited`, `normalize_upstream_error`).
* `src/core/security.py`  — Fernet-based secret encryption, PKCE and expiry
  helpers (`encrypt_secret`, `decrypt_secret`, `generate_pkce`,
  `compute_expiry`, `is_expired`).
* `src/core/token_store.py` — the per-tenant `TokenStore`
  (`save_tokens`, `get_tokens`, `get_decrypted_access`,
  `ensure_valid_token_atlassian`).
* `src/core/db.py` — tenant-scoped collection naming (`tenant_collection`).
* `src/connectors/jira/router.py` — the Jira connector's OAuth callback and
  the token/cloud-id precondition phase of `search`.
* `src/connectors/jira/mapping.py`, `src/connectors/confluence/mapping.py` —
  the normalizers `map_issue` / `map_page`.
* `app/core/security.py` — the AES-GCM blob variant (`encrypt_blob`,
  `decrypt_blob`).

Machine timestamps are modelled as `Int` (seconds), HTTP statuses as `Nat`,
dictionaries as association lists, and the Python truthiness conventions the
code relies on (`or {}`, `if not x`) are embedded explicitly.  The external
cryptographic primitives (the `cryptography` package's `Fernet` and `AESGCM`)
are not repository code; they are modelled by their documented contract as an
authenticated, key-dependent, invertible encoding with an integrity tag, so
that the repository's wrappers can be analysed faithfully.
-/

namespace UCB

/-- Python truthiness of an optional string: `None` and `""` are falsy. -/
def strTruthy : Option String → Bool
  | none => false
  | some s => s ≠ ""

/-! ## `src/core/response.py` -/

/-- The unified payload shape produced by `src/core/response.py`.  A success
payload has `status = "ok"` and all error-only fields absent; an error payload
has `status = "error"` and a machine-readable `code`.  `details` models the
optional structured-details dict as an association list. -/
structure Payload where
  status : String
  code : Option String := none
  message : Option String := none
  retry_after : Option Nat := none
  details : Option (List (String × String)) := none
  http_status : Option Nat := none
deriving DecidableEq, Repr

/-- `response.error_payload`: standardized error payload.  Per the Python
code, `details` is attached only when the supplied dict is truthy (non-empty),
`retry_after` and `http_status` only when not `None`. -/
def error_payload (code : String) (message : String)
    (retry_after : Option Nat := none)
    (details : Option (List (String × String)) := none)
    (http_status : Option Nat := none) : Payload :=
  { status := "error"
    code := some code
    message := some message
    retry_after := retry_after
    details := match details with
      | some l => if l = [] then none else some l
      | none => none
    http_status := http_status }

/-- `response.validation_error`. -/
def validation_error (message : String)
    (details : Option (List (String × String)) := none) : Payload :=
  error_payload "VALIDATION_ERROR" message none
    (some (details.getD [])) none

/-- `response.auth_required_error` with its default message. -/
def auth_required_error : Payload :=
  error_payload "AUTH_REQUIRED" "Authentication required to perform this operation."

/-- `response.config_required_error`. -/
def config_required_error (message : String) : Payload :=
  error_payload "CONFIG_REQUIRED" message

/-- First value in an association list under a key (Python `k in headers` /
`headers[k]` on a dict rendered as an association list). -/
def header_lookup (headers : List (String × String)) (k : String) : Option String :=
  (headers.find? (fun p => p.1 = k)).map (·.2)

/-- The ordered probe of retry-after-style header keys performed by
`response._is_rate_limited`. -/
def retry_after_header (headers : List (String × String)) : Option String :=
  match header_lookup headers "retry-after" with
  | some v => some v
  | none =>
    match header_lookup headers "Retry-After" with
    | some v => some v
    | none =>
      match header_lookup headers "x-rate-limit-reset" with
      | some v => some v
      | none => header_lookup headers "X-Rate-Limit-Reset"

/-- Model of Python `float(header_value)` restricted to the non-negative
integral values that actually occur in retry-after headers: a string of
decimal digits parses to its value, anything else raises (maps to `none`). -/
def parse_retry_after (s : String) : Option Nat :=
  if !s.toList.isEmpty && s.toList.all Char.isDigit then
    some (s.toList.foldl (fun a c => a * 10 + (c.toNat - 48)) 0)
  else
    none

/-- `response._is_rate_limited`: a 429 status is rate-limited; the retry-after
hint is the first recognised header value when it parses, else `none`
(the Python `except` path). -/
def is_rate_limited (status_code : Option Nat)
    (headers : List (String × String)) : Bool × Option Nat :=
  if status_code = some 429 then
    match retry_after_header headers with
    | none => (true, none)
    | some v => (true, parse_retry_after v)
  else (false, none)

/-- `response.normalize_upstream_error`: 401/403 → `AUTH_FAILED`;
429 → `RATE_LIMITED` with the optional retry-after hint; every other status →
the `UPSTREAM_ERROR` catch-all, whose `details` embeds the upstream response
text verbatim under the `"upstream"` key. -/
def normalize_upstream_error (upstream_status : Option Nat)
    (upstream_text : Option String)
    (headers : List (String × String) := [])
    (default_message : String := "Upstream service error") : Payload :=
  if upstream_status = some 401 ∨ upstream_status = some 403 then
    error_payload "AUTH_FAILED" "Authorization with upstream service failed."
      none none upstream_status
  else
    let lim := is_rate_limited upstream_status headers
    if lim.1 then
      error_payload "RATE_LIMITED" "Rate limit reached. Please retry later."
        lim.2 none upstream_status
    else
      error_payload "UPSTREAM_ERROR" default_message none
        (some [("upstream", upstream_text.getD "")]) upstream_status

/-! ## `src/core/security.py` — Crypto Box

The `cryptography` package's `Fernet` is external library code; it is modelled
by its documented contract: an authenticated symmetric scheme whose tokens
carry an integrity tag over a key-dependent reversible body, with
`decrypt ∘ encrypt = id` under the same key and rejection (`InvalidToken`) of
any token whose tag does not verify.  The repository's wrappers
`encrypt_secret` / `decrypt_secret` are translated on top of that model; the
settings-derived Fernet key is passed explicitly as a `Nat` parameter. -/

/-- A Fernet token as an opaque ciphertext value: a byte-level body plus an
integrity tag.  The repository only ever stores and transports these opaquely. -/
structure FernetToken where
  body : List Nat
  tag : Nat
deriving DecidableEq, Repr

/-- Model integrity tag (the HMAC part of a Fernet token): a key-dependent
accumulating checksum of the body. -/
def fernetMac (key : Nat) (body : List Nat) : Nat :=
  body.foldl (fun a b => (a * 257 + b + 1) % 1000000007) (key % 1000000007 + 1)

/-- Byte view of a string (code points; agrees with UTF-8 on the ASCII tokens
the code handles). -/
def strBytes (s : String) : List Nat :=
  s.toList.map Char.toNat

/-- Model Fernet encryption: key-dependent reversible body plus tag. -/
def fernetEncrypt (key : Nat) (plaintext : String) : FernetToken :=
  let body := (strBytes plaintext).map (fun b => b + key + 1)
  { body := body, tag := fernetMac key body }

/-- Whether one modelled ciphertext byte deciphers to a valid character under
the key. -/
def fernetByteOk (key b : Nat) : Bool :=
  key + 1 ≤ b && decide (Nat.isValidChar (b - (key + 1)))

/-- Model Fernet decryption: verifies the tag, then inverts the body; any
token whose tag or body does not verify is rejected (`InvalidToken`,
modelled as `none`). -/
def fernetDecrypt (key : Nat) (tok : FernetToken) : Option String :=
  if tok.tag = fernetMac key tok.body && tok.body.all (fernetByteOk key) then
    some (String.mk (tok.body.map (fun b => Char.ofNat (b - (key + 1)))))
  else
    none

/-- `security.encrypt_secret`: encrypt a secret string with the configured
Fernet key. -/
def encrypt_secret (key : Nat) (plaintext : String) : FernetToken :=
  fernetEncrypt key plaintext

/-- `security.decrypt_secret`: `None` input stays `None`; a token that fails
to decrypt (`InvalidToken` / `ValueError`) is treated as missing (`none`),
never surfaced as corrupted plaintext. -/
def decrypt_secret (key : Nat) (token : Option FernetToken) : Option String :=
  match token with
  | none => none
  | some t => fernetDecrypt key t

/- `security._now_utc` is modelled by an explicit `now : Int` parameter
threaded through the definitions below. -/

/-- `security.compute_expiry`: absolute expiry with a 30-second safety skew
(`now + max 0 (expires_in - skew)`). -/
def compute_expiry (now : Int) (expires_in_seconds : Int) (skew_seconds : Int := 30) : Int :=
  now + max 0 (expires_in_seconds - skew_seconds)

/-- `security.is_expired`: a missing timestamp counts as expired; otherwise
expired iff `expires_at ≤ now`. -/
def is_expired (now : Int) (expires_at : Option Int) : Bool :=
  match expires_at with
  | none => true
  | some t => t ≤ now

/-! ### PKCE (`security.generate_pkce`) -/

/-- The URL-safe base64 alphabet (`base64.urlsafe_b64encode`). -/
def b64urlAlphabet : List Char :=
  "ABCDEFGHIJKLMNOPQRSTUVWXYZabcdefghijklmnopqrstuvwxyz0123456789-_".toList

/-- Character for a 6-bit group. -/
def b64c (n : Nat) : Char :=
  b64urlAlphabet.getD n '='

/-- `base64.urlsafe_b64encode` followed by stripping the `=` padding
(`.rstrip(b"=")`), as the Python code always does. -/
def b64urlEncodeNoPad : List Nat → List Char
  | [] => []
  | [b1] => [b64c (b1 / 4), b64c (b1 % 4 * 16)]
  | [b1, b2] => [b64c (b1 / 4), b64c (b1 % 4 * 16 + b2 / 16), b64c (b2 % 16 * 4)]
  | b1 :: b2 :: b3 :: rest =>
    b64c (b1 / 4) :: b64c (b1 % 4 * 16 + b2 / 16) :: b64c (b2 % 16 * 4 + b3 / 64)
      :: b64c (b3 % 64) :: b64urlEncodeNoPad rest

/-- The PKCE bundle produced by `security.generate_pkce`. -/
structure PKCEBundle where
  verifier : String
  challenge : String
  method : String
deriving DecidableEq, Repr

/-- `security.generate_pkce`.  `rand` stands for the `os.urandom(40)` bytes
and `sha256` for the external `hashlib.sha256` digest function (external
library code, passed as a parameter): the verifier is the padding-stripped
URL-safe base64 of the random bytes, the challenge the padding-stripped
URL-safe base64 of the SHA-256 digest of the verifier's UTF-8 bytes. -/
def generate_pkce (sha256 : List Nat → List Nat) (rand : List Nat) : PKCEBundle :=
  let verifier := String.mk (b64urlEncodeNoPad rand)
  let challenge := String.mk (b64urlEncodeNoPad (sha256 (strBytes verifier)))
  { verifier := verifier, challenge := challenge, method := "S256" }

/-! ## `app/core/security.py` — AES-GCM blob variant

The `AESGCM` primitive is external library code, modelled by its contract
exactly as Fernet above.  The repository's `encrypt_blob` / `decrypt_blob`
pass plaintext through unchanged when no encryption key is configured, and
otherwise prepend a 12-byte random nonce to `ciphertext‖tag`. -/

/-- Model AES-GCM authentication tag. -/
def gcmTag (key : Nat) (nonce plaintext : List Nat) : Nat :=
  (nonce ++ plaintext).foldl (fun a b => (a * 263 + b + 1) % 1000000007) (key % 1000000007 + 2)

/-- Model `AESGCM.encrypt`: ciphertext (key-dependent reversible body)
followed by the authentication tag. -/
def aesgcmEncrypt (key : Nat) (nonce plaintext : List Nat) : List Nat :=
  plaintext.map (fun b => b + key + 1) ++ [gcmTag key nonce plaintext]

/-- Model `AESGCM.decrypt`: split `ciphertext‖tag`, verify the tag, invert the
body; rejection (`InvalidTag`) is `none`. -/
def aesgcmDecrypt (key : Nat) (nonce ctAndTag : List Nat) : Option (List Nat) :=
  match ctAndTag.getLast? with
  | none => none
  | some tag =>
    let ct := ctAndTag.dropLast
    if ct.all (fun b => key + 1 ≤ b) &&
        tag = gcmTag key nonce (ct.map (fun b => b - (key + 1))) then
      some (ct.map (fun b => b - (key + 1)))
    else
      none

/-- `app.core.security.encrypt_blob`: with no configured key the plaintext is
returned unchanged (explicit degraded mode); otherwise `nonce ‖ ct ‖ tag`.
The 12 random nonce bytes are passed explicitly. -/
def encrypt_blob (key : Option Nat) (nonce : List Nat) (plaintext : List Nat) : List Nat :=
  match key with
  | none => plaintext
  | some k => nonce ++ aesgcmEncrypt k nonce plaintext

/-- `app.core.security.decrypt_blob`: with no configured key the blob is
returned unchanged; otherwise the first 12 bytes are the nonce and the rest is
`ciphertext‖tag`. -/
def decrypt_blob (key : Option Nat) (blob : List Nat) : Option (List Nat) :=
  match key with
  | none => some blob
  | some k => aesgcmDecrypt k (blob.take 12) (blob.drop 12)

/-! ## `src/core/db.py` and `src/core/token_store.py` — Credential Store

MongoDB is modelled as a function from (collection name, document `_id`) to an
optional document.  `tenant_collection` scopes every access through the naming
convention `<tenantId>__<collection>`, and `upsert_by_id` / `delete_one` are
whole-document updates at one key. -/

/-- The `meta.oauth` sub-document of a connector record: encrypted tokens,
expiry and scope (`OAuthState` in `src/core/models.py`). -/
structure OAuthFields where
  access_token : Option FernetToken
  refresh_token : Option FernetToken
  expires_at : Option Int
  scope : Option String
deriving DecidableEq, Repr

/-- A connector document as written by `TokenStore.save_tokens`. -/
structure ConnDoc where
  name : String
  tenant_id : String
  status : String
  oauth : OAuthFields
  extra : List (String × String)
deriving DecidableEq, Repr

/-- An ephemeral OAuth session document as written by `oauth_login`
(`_id = "oauth_session::<connector>"`). -/
structure SessionDoc where
  state : Option String
  code_verifier : Option String
  created_at : Int
deriving DecidableEq, Repr

/-- A document in a tenant collection is either a connector record or an
OAuth session record (they share the collection, under distinct ids). -/
inductive Doc where
  | conn (c : ConnDoc)
  | sess (s : SessionDoc)
deriving DecidableEq, Repr

/-- The database: collection name → document `_id` → document. -/
def DB : Type := String → String → Option Doc

/-- `db.tenant_collection` naming convention: `<tenantId>__<collection>`. -/
def tenant_collection_name (tenant_id : String) (name : String) : String :=
  tenant_id ++ "__" ++ name

/-- Write one document at one (collection, id) key (`upsert_by_id` /
`update_one(..., upsert=True)`: the `$set` carries the full payload, so the
modelled fields are replaced wholesale). -/
def db_upsert (db : DB) (col id : String) (doc : Doc) : DB :=
  fun c i => if c = col ∧ i = id then some doc else db c i

/-- Delete one document at one (collection, id) key (`delete_one`). -/
def db_delete (db : DB) (col id : String) : DB :=
  fun c i => if c = col ∧ i = id then none else db c i

/-- Encryption of an optional secret as done inside `save_tokens`
(`encrypt_secret(tok) if tok else None` — Python truthiness). -/
def encOpt (key : Nat) (s : Option String) : Option FernetToken :=
  match s with
  | none => none
  | some v => if v = "" then none else some (encrypt_secret key v)

/-- `TokenStore.save_tokens`: upsert the connector document with encrypted
tokens; `extra` defaults to `{}` (`extra or {}`). -/
def save_tokens (key : Nat) (tenant_id : String) (db : DB)
    (connector_id name : String)
    (access_token refresh_token : Option String)
    (scope : Option String) (expires_at : Option Int)
    (extra : Option (List (String × String)) := none) : DB :=
  let doc : ConnDoc :=
    { name := name
      tenant_id := tenant_id
      status := "linked"
      oauth :=
        { access_token := encOpt key access_token
          refresh_token := encOpt key refresh_token
          expires_at := expires_at
          scope := scope }
      extra := extra.getD [] }
  db_upsert db (tenant_collection_name tenant_id "connectors") connector_id (Doc.conn doc)

/-- `TokenStore.get_tokens`: read the connector document and return its
`meta.oauth` fields still encrypted; a document of the wrong shape yields the
all-`None` state (`doc.get("meta") or {}`), a missing document `None`. -/
def get_tokens (tenant_id : String) (db : DB) (connector_id : String) :
    Option OAuthFields :=
  match db (tenant_collection_name tenant_id "connectors") connector_id with
  | none => none
  | some (Doc.conn c) => some c.oauth
  | some (Doc.sess _) =>
    some { access_token := none, refresh_token := none, expires_at := none, scope := none }

/-- `TokenStore.get_decrypted_access`: decrypted access token, decrypted
refresh token and expiry, or all-`None` when the record is absent. -/
def get_decrypted_access (key : Nat) (tenant_id : String) (db : DB)
    (connector_id : String) : Option String × Option String × Option Int :=
  match get_tokens tenant_id db connector_id with
  | none => (none, none, none)
  | some st => (decrypt_secret key st.access_token, decrypt_secret key st.refresh_token, st.expires_at)

/-- The parsed JSON body (and metadata) of a vendor token-endpoint response,
as consumed by `ensure_valid_token_atlassian` and `oauth_callback`. -/
structure TokenResponse where
  status_code : Nat
  access_token : Option String := none
  refresh_token : Option String := none
  expires_in : Option Int := none
  scope : Option String := none
  text : Option String := none
  headers : List (String × String) := []
deriving DecidableEq, Repr

/-- The arguments of a `save_tokens` call recorded by the lifecycle manager,
i.e. exactly what gets persisted. -/
structure SavedCall where
  connector_id : String
  name : String
  access : Option String
  refresh : Option String
  scope : Option String
  expires_at : Option Int
  extra : List (String × String)
deriving DecidableEq, Repr

/-- Result of one `ensure_valid_token_atlassian` call: the returned token, the
number of vendor HTTP requests performed, the resulting database, and the
`save_tokens` call it made (if any). -/
structure EnsureResult where
  token : Option String
  network_calls : Nat
  db : DB
  saved : Option SavedCall

/-- `TokenStore.ensure_valid_token_atlassian`.  `resp` is the response the
single refresh POST would receive (consulted only if the POST happens), with
its JSON body already parsed.  Control flow translated from the source:
1. a truthy decrypted access token that is not expired is returned with no
   network call; 2. otherwise `refresh_tok = refresh_token or rt`; if falsy,
   return `None` with no network call; 3. otherwise exactly one POST;
   `status >= 400` → log and return `None`; 4. otherwise persist
   `access_token`, `refresh_token` (defaulted to the old one), `scope`,
   `compute_expiry(expires_in or 3600)` — with the `extra` parameter left at
   its default — and return the response's access token. -/
def ensure_valid_token_atlassian (key : Nat) (now : Int) (tenant_id : String)
    (db : DB) (connector_id name : String)
    (refresh_token : Option String) (resp : TokenResponse) : EnsureResult :=
  let dec := get_decrypted_access key tenant_id db connector_id
  let access_token := dec.1
  let rt := dec.2.1
  let expires_at := dec.2.2
  if strTruthy access_token && !is_expired now expires_at then
    { token := access_token, network_calls := 0, db := db, saved := none }
  else
    let refresh_tok := if strTruthy refresh_token then refresh_token else rt
    if !strTruthy refresh_tok then
      { token := none, network_calls := 0, db := db, saved := none }
    else if 400 ≤ resp.status_code then
      { token := none, network_calls := 1, db := db, saved := none }
    else
      let new_access := resp.access_token
      let new_refresh := match resp.refresh_token with
        | some r => some r
        | none => refresh_tok
      let expires_in := resp.expires_in.getD 3600
      let scope := resp.scope
      let new_expires_at := compute_expiry now expires_in
      let db2 := save_tokens key tenant_id db connector_id name
        new_access new_refresh scope (some new_expires_at)
      { token := new_access
        network_calls := 1
        db := db2
        saved := some
          { connector_id := connector_id, name := name
            access := new_access, refresh := new_refresh
            scope := scope, expires_at := some new_expires_at
            extra := [] } }

/-! ## `src/connectors/jira/router.py` — OAuth callback and search preconditions -/

/-- Result of one `oauth_callback` invocation: the returned payload, the
resulting database, the `save_tokens` call (if the exchange succeeded) and
whether the OAuth session document was deleted. -/
structure CallbackResult where
  payload : Payload
  db : DB
  saved : Option SavedCall
  session_deleted : Bool

/-- The `_id` under which a connector's ephemeral OAuth session is stored. -/
def session_doc_id (connector_id : String) : String :=
  "oauth_session::" ++ connector_id

/-- The `state` field of the stored OAuth session for a connector, when a
session document is present. -/
def stored_session_state (tenant_id : String) (db : DB) (connector_id : String) :
    Option String :=
  match db (tenant_collection_name tenant_id "connectors") (session_doc_id connector_id) with
  | some (Doc.sess s) => s.state
  | _ => none

/-- The `code_verifier` field of the stored OAuth session, when present. -/
def stored_session_verifier (tenant_id : String) (db : DB) (connector_id : String) :
    Option String :=
  match db (tenant_collection_name tenant_id "connectors") (session_doc_id connector_id) with
  | some (Doc.sess s) => s.code_verifier
  | _ => none

/-- `JiraConnector.oauth_callback`, translated from the source.
`verify` stands for `security.verify_csrf_state` (a pure format/HMAC-footprint
check on the state string — the callback's behaviour is analysed for every
possible verdict of it); `resp` is the response of the single
authorization-code exchange POST; `accessible_cloud_id` is the cloud id the
accessible-resources discovery would yield (`None` when discovery fails or
finds nothing).  Control flow: 1. falsy or unverifiable state →
`validation_error`, nothing written; 2. missing session, state mismatch or
missing code verifier → `validation_error`, nothing written; 3. exchange
`status >= 400` → `normalize_upstream_error`, nothing written; 4. otherwise
persist the tokens with `extra = {"cloud_id": ...} if cloud_id else {}`,
delete the session and return ok. -/
def oauth_callback (key : Nat) (now : Int) (tenant_id : String)
    (verify : String → Bool) (db : DB) (connector_id name : String)
    (state : Option String) (resp : TokenResponse)
    (accessible_cloud_id : Option String) : CallbackResult :=
  let col := tenant_collection_name tenant_id "connectors"
  if !strTruthy state || !verify (state.getD "") then
    { payload := validation_error "Invalid OAuth state"
      db := db, saved := none, session_deleted := false }
  else
    let stored_state := stored_session_state tenant_id db connector_id
    let code_verifier := stored_session_verifier tenant_id db connector_id
    if !strTruthy stored_state || stored_state ≠ state || !strTruthy code_verifier then
      { payload := validation_error "OAuth state mismatch"
        db := db, saved := none, session_deleted := false }
    else if 400 ≤ resp.status_code then
      { payload := normalize_upstream_error (some resp.status_code) resp.text
          resp.headers "OAuth code exchange failed"
        db := db, saved := none, session_deleted := false }
    else
      let access_token := resp.access_token
      let refresh_token := resp.refresh_token
      let scope := resp.scope
      let expires_at := compute_expiry now (resp.expires_in.getD 3600)
      let extra : List (String × String) :=
        match accessible_cloud_id with
        | some c => if c = "" then [] else [("cloud_id", c)]
        | none => []
      let db2 := save_tokens key tenant_id db connector_id name
        access_token refresh_token scope (some expires_at) (some extra)
      let db3 := db_delete db2 col (session_doc_id connector_id)
      { payload := { status := "ok" }
        db := db3
        saved := some
          { connector_id := connector_id, name := name
            access := access_token, refresh := refresh_token
            scope := scope, expires_at := some expires_at, extra := extra }
        session_deleted := true }

/-- Outcome of the token/cloud-id precondition phase of `JiraConnector.search`
(everything before the vendor search request): either an error payload is
returned, or the request proceeds with a valid access token and cloud id. -/
inductive SearchOutcome where
  | errOut (p : Payload)
  | proceed (access cloud_id : String)
deriving DecidableEq, Repr

/-- The `cloud_id` recorded in the connector document's `extra` metadata
(`(doc.get("meta") or {}).get("extra") or {}` then `.get("cloud_id")`). -/
def stored_cloud_id (tenant_id : String) (db : DB) (connector_id : String) :
    Option String :=
  match db (tenant_collection_name tenant_id "connectors") connector_id with
  | some (Doc.conn c) => (c.extra.find? (fun p => p.1 = "cloud_id")).map (·.2)
  | _ => none

/-- The precondition phase of `JiraConnector.search`: obtain a valid token via
`ensure_valid_token_atlassian` (the connector passes `refresh_token=None`);
a falsy token → `auth_required_error`; a missing/falsy `cloud_id` in the
(possibly just-refreshed) record → `config_required_error`; otherwise the
vendor call proceeds. -/
def jira_search_auth (key : Nat) (now : Int) (tenant_id : String)
    (db : DB) (resp : TokenResponse) : SearchOutcome :=
  let r := ensure_valid_token_atlassian key now tenant_id db "jira" "Jira" none resp
  match r.token with
  | none => .errOut auth_required_error
  | some access =>
    if access = "" then .errOut auth_required_error
    else
      match stored_cloud_id tenant_id r.db "jira" with
      | none => .errOut (config_required_error "Missing Jira cloud_id for this tenant.")
      | some cid =>
        if cid = "" then .errOut (config_required_error "Missing Jira cloud_id for this tenant.")
        else .proceed access cid

/-! ## Store operation sequences (tenant isolation) -/

/-- One Credential-Store operation, as issued by a tenant's `TokenStore` /
connector: `save_tokens`, `get_tokens`, or `delete_one` of a document id
(used by `disconnect` for both the connector record and the session). -/
inductive StoreOp where
  | save (connector_id name : String)
      (access refresh scope : Option String) (expires_at : Option Int)
      (extra : Option (List (String × String)))
  | get (connector_id : String)
  | del (doc_id : String)

/-- Run one operation under a tenant id: the new database plus the
observation the operation returns (`get` observes the stored token state). -/
def run_op (key : Nat) (tenant_id : String) (db : DB) :
    StoreOp → DB × Option (Option OAuthFields)
  | .save cid name a r s e x => (save_tokens key tenant_id db cid name a r s e x, none)
  | .get cid => (db, some (get_tokens tenant_id db cid))
  | .del did => (db_delete db (tenant_collection_name tenant_id "connectors") did, none)

/-- Run a sequence of operations under a tenant id, collecting observations. -/
def run_ops (key : Nat) (tenant_id : String) (db : DB) :
    List StoreOp → DB × List (Option (Option OAuthFields))
  | [] => (db, [])
  | op :: rest =>
    let st := run_op key tenant_id db op
    let tl := run_ops key tenant_id st.1 rest
    (tl.1, st.2 :: tl.2)

/-! ## Normalizer mappings (`jira/mapping.py`, `confluence/mapping.py`)

Vendor payloads are modelled by a small JSON value type.  `jget` models the
Python object view `d.get(k)`: a missing key and an explicit JSON `null` both
yield the Python `None` object, i.e. `none`. -/

/-- JSON values, as far as the mappings inspect them. -/
inductive JVal where
  | str (s : String)
  | num (n : Int)
  | jbool (b : Bool)
  | obj (fields : List (String × JVal))
  | arr (items : List JVal)
deriving Repr, BEq

/-- `d.get(k)` on a JSON object: first binding of the key; `none` for a
missing key or a non-object. -/
def jget : JVal → String → Option JVal
  | .obj fields, k => (fields.find? (fun p => p.1 = k)).map (·.2)
  | _, _ => none

/-- Python truthiness of a JSON value. -/
def jtruthy : JVal → Bool
  | .str s => s ≠ ""
  | .num n => n ≠ 0
  | .jbool b => b
  | .obj fields => !fields.isEmpty
  | .arr items => !items.isEmpty

/-- Python `a or b` over optional JSON values. -/
def pyOr (a b : Option JVal) : Option JVal :=
  match a with
  | some v => if jtruthy v then some v else b
  | none => b

/-- Python `x or {}`: the value when truthy, else the empty dict. -/
def pyOrObj (a : Option JVal) : JVal :=
  match a with
  | some v => if jtruthy v then v else .obj []
  | none => .obj []

/-- The normalized Jira issue produced by `map_issue`; in Python every key is
present and a missing vendor field surfaces as the JSON value `null`
(modelled as `none`). -/
structure NormalizedIssue where
  id : Option JVal
  key : Option JVal
  title : Option JVal
  type : Option JVal
  status : Option JVal
deriving Repr, BEq

/-- `jira/mapping.map_issue`. -/
def map_issue (raw : JVal) : NormalizedIssue :=
  let fields := pyOrObj (jget raw "fields")
  let issuetype := jget (pyOrObj (jget fields "issuetype")) "name"
  let status := jget (pyOrObj (jget fields "status")) "name"
  { id := jget raw "id"
    key := jget raw "key"
    title := jget fields "summary"
    type := issuetype
    status := status }

/-- The normalized Confluence page produced by `map_page`. -/
structure NormalizedPage where
  id : Option JVal
  title : Option JVal
  spaceKey : Option JVal
  status : Option JVal
deriving Repr, BEq

/-- `confluence/mapping.map_page`. -/
def map_page (raw : JVal) : NormalizedPage :=
  { id := pyOr (jget raw "id") (jget raw "uuid")
    title := jget raw "title"
    spaceKey := jget (pyOrObj (jget raw "space")) "key"
    status := jget raw "status" }

/-! ## Shared lemmas -/

/-- The modelled Fernet scheme round-trips under a fixed key. -/
theorem fernet_roundtrip (key : Nat) (s : String) :
    fernetDecrypt key (fernetEncrypt key s) = some s := by
  have hall : (((strBytes s).map (fun b => b + key + 1)).all (fernetByteOk key)) = true := by
    simp only [List.all_eq_true, List.mem_map, strBytes]
    rintro b ⟨n, ⟨c, hc, rfl⟩, rfl⟩
    simp only [fernetByteOk, Bool.and_eq_true, decide_eq_true_eq]
    exact ⟨by omega, by simpa [Nat.add_sub_cancel] using c.valid⟩
  simp only [fernetDecrypt, fernetEncrypt, hall, Bool.and_true, true_and]
  rw [if_pos (by simp)]
  congr 1
  have hmap : ((strBytes s).map (fun b => b + key + 1)).map (fun b => Char.ofNat (b - (key + 1)))
      = s.toList := by
    simp only [List.map_map, strBytes, Function.comp]
    calc s.toList.map (fun c => Char.ofNat (c.toNat + key + 1 - (key + 1)))
        = s.toList.map (fun c => Char.ofNat c.toNat) := by
          apply List.map_congr_left; intro a _; congr 1; omega
      _ = s.toList.map id := List.map_congr_left (fun a _ => Char.ofNat_toNat a)
      _ = s.toList := List.map_id _
  rw [hmap]
  cases s; rfl

/-- Subtracting the key undoes adding it, bytewise. -/
theorem map_sub_map_add (key : Nat) (pt : List Nat) :
    (pt.map (fun b => b + key + 1)).map (fun b => b - (key + 1)) = pt := by
  simp only [List.map_map, Function.comp]
  calc pt.map (fun b => b + key + 1 - (key + 1)) = pt.map id := by
        apply List.map_congr_left; intro a _; simp
    _ = pt := List.map_id _

/-- The modelled AES-GCM scheme round-trips under a fixed key and nonce. -/
theorem aesgcm_roundtrip (key : Nat) (nonce pt : List Nat) :
    aesgcmDecrypt key nonce (aesgcmEncrypt key nonce pt) = some pt := by
  unfold aesgcmDecrypt aesgcmEncrypt
  rw [List.getLast?_concat]
  simp only [List.dropLast_concat]
  rw [map_sub_map_add]
  have hall : (pt.map (fun b => b + key + 1)).all (fun b => key + 1 ≤ b) = true := by
    simp only [List.all_eq_true, List.mem_map, decide_eq_true_eq]
    rintro b ⟨a, _, rfl⟩; omega
  simp [hall, map_sub_map_add]

/-! ## Claim theorems -/

/-- C5: for every plaintext string `s`, `decrypt_secret (encrypt_secret s) = s`
under a fixed configured encryption key, and likewise
`decrypt_blob (encrypt_blob b) = b` for byte strings (for any configured key,
including the keyless passthrough mode, with the 12-byte nonce the code
generates). -/
theorem C5_crypto_roundtrip :
    (∀ (key : Nat) (s : String),
      decrypt_secret key (some (encrypt_secret key s)) = some s) ∧
    (∀ (key : Option Nat) (nonce b : List Nat), nonce.length = 12 →
      decrypt_blob key (encrypt_blob key nonce b) = some b) := by
  constructor
  · intro key s
    simpa [decrypt_secret, encrypt_secret] using fernet_roundtrip key s
  · intro key nonce b h
    cases key with
    | none => rfl
    | some k =>
      unfold decrypt_blob encrypt_blob
      rw [← h, List.take_left, List.drop_left]
      exact aesgcm_roundtrip k nonce b

/-- Witness for C5 at a concrete key, plaintext, nonce and byte string. -/
theorem C5_crypto_roundtrip_witness :
    decrypt_secret 7 (some (encrypt_secret 7 "tok-123")) = some "tok-123" ∧
    (List.replicate 12 9).length = 12 ∧
    decrypt_blob (some 3) (encrypt_blob (some 3) (List.replicate 12 9) [10, 20, 30]) =
      some [10, 20, 30] :=
  ⟨C5_crypto_roundtrip.1 7 "tok-123", by decide,
    C5_crypto_roundtrip.2 (some 3) (List.replicate 12 9) [10, 20, 30] (by decide)⟩

/-- 401 and 403 normalize to `AUTH_FAILED`. -/
theorem normalize_code_auth (st : Nat) (h : st = 401 ∨ st = 403)
    (text : Option String) (headers : List (String × String)) (dm : String) :
    (normalize_upstream_error (some st) text headers dm).code = some "AUTH_FAILED" := by
  rcases h with rfl | rfl <;> simp [normalize_upstream_error, error_payload]

/-- 429 normalizes to `RATE_LIMITED`, carrying the parsed retry-after hint
when a recognised header is present and parses. -/
theorem normalize_code_rate (text : Option String)
    (headers : List (String × String)) (dm : String) :
    (normalize_upstream_error (some 429) text headers dm).code = some "RATE_LIMITED" ∧
    (∀ v n, retry_after_header headers = some v → parse_retry_after v = some n →
      (normalize_upstream_error (some 429) text headers dm).retry_after = some n) := by
  constructor
  · rcases hr : retry_after_header headers with _ | v <;>
      simp [normalize_upstream_error, is_rate_limited, hr, error_payload]
  · intro v n hv hn
    simp [normalize_upstream_error, is_rate_limited, hv, hn, error_payload]

/-- Any status other than 401/403/429 normalizes to the `UPSTREAM_ERROR`
catch-all. -/
theorem normalize_code_upstream (st : Nat)
    (h : st ≠ 401 ∧ st ≠ 403 ∧ st ≠ 429)
    (text : Option String) (headers : List (String × String)) (dm : String) :
    (normalize_upstream_error (some st) text headers dm).code = some "UPSTREAM_ERROR" := by
  obtain ⟨h1, h3, h9⟩ := h
  simp [normalize_upstream_error, is_rate_limited, error_payload, h1, h3, h9]

/-- C6: `normalize_upstream_error` is total over HTTP statuses and maps each
status in {400, 401, 403, 404, 429, 500, 502, 503} to exactly one code of the
fixed taxonomy; 429 always yields `RATE_LIMITED` (with the vendor-supplied
retry-after hint when one is present and parses); 401 and 403 yield
`AUTH_FAILED`; every other status of the set yields the `UPSTREAM_ERROR`
catch-all. -/
theorem C6_normalize_upstream_error_total (status : Nat)
    (h : status = 400 ∨ status = 401 ∨ status = 403 ∨ status = 404 ∨ status = 429 ∨
      status = 500 ∨ status = 502 ∨ status = 503)
    (text : Option String) (headers : List (String × String)) (dm : String) :
    ((normalize_upstream_error (some status) text headers dm).code = some "AUTH_FAILED" ∨
     (normalize_upstream_error (some status) text headers dm).code = some "RATE_LIMITED" ∨
     (normalize_upstream_error (some status) text headers dm).code = some "UPSTREAM_ERROR") ∧
    (status = 429 →
      (normalize_upstream_error (some status) text headers dm).code = some "RATE_LIMITED" ∧
      ∀ v n, retry_after_header headers = some v → parse_retry_after v = some n →
        (normalize_upstream_error (some status) text headers dm).retry_after = some n) ∧
    ((status = 401 ∨ status = 403) →
      (normalize_upstream_error (some status) text headers dm).code = some "AUTH_FAILED") ∧
    ((status = 400 ∨ status = 404 ∨ status = 500 ∨ status = 502 ∨ status = 503) →
      (normalize_upstream_error (some status) text headers dm).code = some "UPSTREAM_ERROR") := by
  refine ⟨?_, ?_, ?_, ?_⟩
  · rcases h with rfl | rfl | rfl | rfl | rfl | rfl | rfl | rfl
    · exact Or.inr (Or.inr (normalize_code_upstream 400 (by omega) text headers dm))
    · exact Or.inl (normalize_code_auth 401 (Or.inl rfl) text headers dm)
    · exact Or.inl (normalize_code_auth 403 (Or.inr rfl) text headers dm)
    · exact Or.inr (Or.inr (normalize_code_upstream 404 (by omega) text headers dm))
    · exact Or.inr (Or.inl (normalize_code_rate text headers dm).1)
    · exact Or.inr (Or.inr (normalize_code_upstream 500 (by omega) text headers dm))
    · exact Or.inr (Or.inr (normalize_code_upstream 502 (by omega) text headers dm))
    · exact Or.inr (Or.inr (normalize_code_upstream 503 (by omega) text headers dm))
  · rintro rfl
    exact normalize_code_rate text headers dm
  · intro h'
    exact normalize_code_auth status h' text headers dm
  · intro h'
    exact normalize_code_upstream status (by omega) text headers dm

/-- Witness for C6 at status 429 with a concrete retry-after header. -/
theorem C6_normalize_upstream_error_total_witness :
    (normalize_upstream_error (some 429) none [("Retry-After", "7")] "Upstream service error").code
      = some "RATE_LIMITED" ∧
    (normalize_upstream_error (some 429) none [("Retry-After", "7")] "Upstream service error").retry_after
      = some 7 := by
  have h := C6_normalize_upstream_error_total 429 (by omega) none
    [("Retry-After", "7")] "Upstream service error"
  have h429 := h.2.1 rfl
  exact ⟨h429.1, h429.2 "7" 7 (by decide) (by decide)⟩

/-- C8 counterexample: the `UPSTREAM_ERROR` catch-all of
`normalize_upstream_error` embeds the vendor response body verbatim in the
`details` field — here a body echoing an authorization code — so the error
payload does contain part of the vendor response body, contrary to the claim. -/
theorem C8_counterexample_details_echo_upstream_body :
    (normalize_upstream_error (some 400) (some "invalid_grant code=SECRET-CODE-123") []
      "OAuth code exchange failed").details
      = some [("upstream", "invalid_grant code=SECRET-CODE-123")] := by
  decide

/-- C8 amended: every error message produced by `normalize_upstream_error` is
one of three fixed strings chosen independently of the vendor response body
and of any token/code value; `AUTH_FAILED` and `RATE_LIMITED` payloads carry
no `details` at all; only the `UPSTREAM_ERROR` catch-all carries details, and
those consist exactly of the vendor response body under the `"upstream"` key
(so vendor-echoed content is not excluded there). -/
theorem C8_amended_no_secret_injection (status : Option Nat) (text : Option String)
    (headers : List (String × String)) (dm : String) :
    ((normalize_upstream_error status text headers dm).message
        = some "Authorization with upstream service failed." ∨
     (normalize_upstream_error status text headers dm).message
        = some "Rate limit reached. Please retry later." ∨
     (normalize_upstream_error status text headers dm).message = some dm) ∧
    (((normalize_upstream_error status text headers dm).code = some "AUTH_FAILED" ∨
      (normalize_upstream_error status text headers dm).code = some "RATE_LIMITED") →
      (normalize_upstream_error status text headers dm).details = none) ∧
    ((normalize_upstream_error status text headers dm).code = some "UPSTREAM_ERROR" →
      (normalize_upstream_error status text headers dm).details
        = some [("upstream", text.getD "")]) := by
  by_cases h43 : status = some 401 ∨ status = some 403
  · refine ⟨Or.inl ?_, fun _ => ?_, fun hc => ?_⟩
    · simp [normalize_upstream_error, if_pos h43, error_payload]
    · simp [normalize_upstream_error, if_pos h43, error_payload]
    · simp [normalize_upstream_error, if_pos h43, error_payload] at hc
  · by_cases hrl : (is_rate_limited status headers).1 = true
    · refine ⟨Or.inr (Or.inl ?_), fun _ => ?_, fun hc => ?_⟩
      · simp [normalize_upstream_error, if_neg h43, hrl, error_payload]
      · simp [normalize_upstream_error, if_neg h43, hrl, error_payload]
      · simp [normalize_upstream_error, if_neg h43, hrl, error_payload] at hc
    · refine ⟨Or.inr (Or.inr ?_), fun hc => ?_, fun _ => ?_⟩
      · simp [normalize_upstream_error, if_neg h43, hrl, error_payload]
      · simp [normalize_upstream_error, if_neg h43, hrl, error_payload] at hc
      · simp [normalize_upstream_error, if_neg h43, hrl, error_payload]

/-- Witness for C8 amended at a concrete 502 upstream failure. -/
theorem C8_amended_no_secret_injection_witness :
    (normalize_upstream_error (some 502) (some "bad gateway") [] "Upstream service error").details
      = some [("upstream", "bad gateway")] :=
  (C8_amended_no_secret_injection (some 502) (some "bad gateway") [] "Upstream service error").2.2
    (by decide)

/-- C9 counterexample: a vendor item carrying no fields at all still maps, and
the resulting normalized item has `id` and `title` absent (Python `None`), so
`id` and `title` are not always present as the claim states. -/
theorem C9_counterexample_missing_id_title :
    (map_issue (JVal.obj [])).id = none ∧ (map_issue (JVal.obj [])).title = none ∧
    (map_page (JVal.obj [])).id = none ∧ (map_page (JVal.obj [])).title = none :=
  ⟨rfl, rfl, rfl, rfl⟩

/-- C9 amended: the normalizers copy the vendor's fields through unchanged —
`id` and `title` are present exactly when the vendor supplied them (an item
lacking them normalizes with those fields absent) — and every field the
vendor did not provide is represented as absent in the result, never as an
empty string: a missing Jira `fields` object yields absent
`title`/`type`/`status`, a missing Confluence `id` falls back to `uuid`, and a
missing `space` yields an absent `spaceKey`. -/
theorem C9_amended_mapping_passthrough (raw : JVal) :
    ((map_issue raw).id = jget raw "id") ∧
    (jget raw "fields" = none →
      (map_issue raw).title = none ∧ (map_issue raw).type = none ∧
      (map_issue raw).status = none) ∧
    ((map_page raw).title = jget raw "title") ∧
    (jget raw "id" = none → (map_page raw).id = jget raw "uuid") ∧
    (jget raw "space" = none → (map_page raw).spaceKey = none) := by
  refine ⟨rfl, fun h => ?_, rfl, fun h => ?_, fun h => ?_⟩
  · simp only [map_issue, h, pyOrObj]
    exact ⟨rfl, rfl, rfl⟩
  · simp [map_page, pyOr, h]
  · simp only [map_page, h, pyOrObj]
    rfl

/-- Witness for C9 amended at a concrete vendor item lacking every optional
field. -/
theorem C9_amended_mapping_passthrough_witness :
    (map_issue (JVal.obj [("id", JVal.str "10001")])).id = some (JVal.str "10001") ∧
    (map_issue (JVal.obj [("id", JVal.str "10001")])).title = none ∧
    (map_page (JVal.obj [("uuid", JVal.str "u-1")])).id = some (JVal.str "u-1") ∧
    (map_page (JVal.obj [("uuid", JVal.str "u-1")])).spaceKey = none := by
  have h := C9_amended_mapping_passthrough (JVal.obj [("id", JVal.str "10001")])
  have h2 := C9_amended_mapping_passthrough (JVal.obj [("uuid", JVal.str "u-1")])
  refine ⟨h.1.trans (by rfl), (h.2.1 (by rfl)).1, (h2.2.2.2.1 (by rfl)).trans (by rfl),
    h2.2.2.2.2 (by rfl)⟩

/-- A linked credential record for tenant `"t1"` / connector `"jira"` whose
access token (ciphertext of `"OLD"` under key 1) expired at time 10, with a
refresh token (ciphertext of `"R1"`). -/
def c1_db : DB := fun c i =>
  if c = tenant_collection_name "t1" "connectors" ∧ i = "jira" then
    some (Doc.conn
      { name := "Jira", tenant_id := "t1", status := "linked"
        oauth :=
          { access_token := some (fernetEncrypt 1 "OLD")
            refresh_token := some (fernetEncrypt 1 "R1")
            expires_at := some 10
            scope := none }
        extra := [] })
  else none

/-- C1 counterexample: with the expired record of `c1_db` at time 1000, a
refresh response with HTTP status 302 — not a 2xx status — still makes
`ensure_valid_token_atlassian` return the response's access token instead of
`none`, because the code only treats statuses ≥ 400 as failures. -/
theorem C1_counterexample_non2xx_success :
    (ensure_valid_token_atlassian 1 1000 "t1" c1_db "jira" "Jira" none
      { status_code := 302, access_token := some "NEW" }).token = some "NEW" := by
  decide

/-- C1 amended: if the stored access token decrypts to a non-empty string and
`expires_at` is in the future, `ensure_valid_token_atlassian` returns that
stored token with zero network calls and no write; if the token is missing or
expired and a refresh token is available, it performs exactly one refresh
POST, and on a response with status < 400 (rather than exactly 2xx) returns
the response's access token, while on status ≥ 400 it returns `none` without
retrying and without writing; with no refresh token available it returns
`none` with zero network calls. -/
theorem C1_ensure_valid_token (key : Nat) (now : Int) (tenant_id : String)
    (db : DB) (connector_id name : String) (refresh_param : Option String)
    (resp : TokenResponse) :
    (strTruthy (get_decrypted_access key tenant_id db connector_id).1 = true →
      is_expired now (get_decrypted_access key tenant_id db connector_id).2.2 = false →
      (ensure_valid_token_atlassian key now tenant_id db connector_id name refresh_param resp).token
          = (get_decrypted_access key tenant_id db connector_id).1 ∧
      (ensure_valid_token_atlassian key now tenant_id db connector_id name refresh_param resp).network_calls = 0 ∧
      (ensure_valid_token_atlassian key now tenant_id db connector_id name refresh_param resp).saved = none) ∧
    ((strTruthy (get_decrypted_access key tenant_id db connector_id).1 = false ∨
        is_expired now (get_decrypted_access key tenant_id db connector_id).2.2 = true) →
      strTruthy (if strTruthy refresh_param then refresh_param
          else (get_decrypted_access key tenant_id db connector_id).2.1) = true →
      (ensure_valid_token_atlassian key now tenant_id db connector_id name refresh_param resp).network_calls = 1 ∧
      (400 ≤ resp.status_code →
        (ensure_valid_token_atlassian key now tenant_id db connector_id name refresh_param resp).token = none ∧
        (ensure_valid_token_atlassian key now tenant_id db connector_id name refresh_param resp).saved = none) ∧
      (resp.status_code < 400 →
        (ensure_valid_token_atlassian key now tenant_id db connector_id name refresh_param resp).token
          = resp.access_token)) ∧
    ((strTruthy (get_decrypted_access key tenant_id db connector_id).1 = false ∨
        is_expired now (get_decrypted_access key tenant_id db connector_id).2.2 = true) →
      strTruthy (if strTruthy refresh_param then refresh_param
          else (get_decrypted_access key tenant_id db connector_id).2.1) = false →
      (ensure_valid_token_atlassian key now tenant_id db connector_id name refresh_param resp).token = none ∧
      (ensure_valid_token_atlassian key now tenant_id db connector_id name refresh_param resp).network_calls = 0) := by
  refine ⟨fun h1 h2 => ?_, fun h12 h3 => ?_, fun h12 h3 => ?_⟩
  · simp [ensure_valid_token_atlassian, h1, h2]
  · have hcond : (strTruthy (get_decrypted_access key tenant_id db connector_id).1 &&
        !is_expired now (get_decrypted_access key tenant_id db connector_id).2.2) = false := by
      rcases h12 with h | h <;> simp [h]
    refine ⟨?_, fun h4 => ?_, fun h4 => ?_⟩
    · simp [ensure_valid_token_atlassian, hcond, h3]
      split <;> rfl
    · simp [ensure_valid_token_atlassian, hcond, h3, h4]
    · have h4' : ¬ 400 ≤ resp.status_code := by omega
      simp [ensure_valid_token_atlassian, hcond, h3, h4']
  · have hcond : (strTruthy (get_decrypted_access key tenant_id db connector_id).1 &&
        !is_expired now (get_decrypted_access key tenant_id db connector_id).2.2) = false := by
      rcases h12 with h | h <;> simp [h]
    simp [ensure_valid_token_atlassian, hcond, h3]

/-- Witness for C1 amended: the expired record of `c1_db` with a 200 refresh
response yields exactly one network call and the new token. -/
theorem C1_ensure_valid_token_witness :
    (ensure_valid_token_atlassian 1 1000 "t1" c1_db "jira" "Jira" none
      { status_code := 200, access_token := some "NEW2" }).network_calls = 1 ∧
    (ensure_valid_token_atlassian 1 1000 "t1" c1_db "jira" "Jira" none
      { status_code := 200, access_token := some "NEW2" }).token = some "NEW2" := by
  have h := (C1_ensure_valid_token 1 1000 "t1" c1_db "jira" "Jira" none
    { status_code := 200, access_token := some "NEW2" }).2.1
    (Or.inr (by decide)) (by decide)
  exact ⟨h.1, h.2.2 (by decide)⟩

/-- A linked credential record for tenant `"t1"` / connector `"jira"` with an
expired access token, a refresh token, and connector metadata
`extra = {"cloud_id": "cloud-1"}` resolved at link time. -/
def c4_db : DB := fun c i =>
  if c = tenant_collection_name "t1" "connectors" ∧ i = "jira" then
    some (Doc.conn
      { name := "Jira", tenant_id := "t1", status := "linked"
        oauth :=
          { access_token := some (fernetEncrypt 5 "OLD")
            refresh_token := some (fernetEncrypt 5 "R1")
            expires_at := some 10
            scope := some "read" }
        extra := [("cloud_id", "cloud-1")] })
  else none

/-- C4 (code bug exhibit): before the refresh the stored record carries
`cloud_id = "cloud-1"`; a successful refresh at time 1000 persists the new
tokens through `save_tokens` with the `extra` argument left at its default, so
the upserted record's `extra` is `{}` — the resolved `cloud_id` is wiped
instead of preserved, and the post-refresh record differs from the
pre-refresh one in `extra` as well as in the token/expiry/scope fields. -/
theorem C4_refresh_wipes_extra :
    stored_cloud_id "t1" c4_db "jira" = some "cloud-1" ∧
    (ensure_valid_token_atlassian 5 1000 "t1" c4_db "jira" "Jira" none
      { status_code := 200, access_token := some "NEWA", refresh_token := some "R2",
        expires_in := some 3600, scope := some "read" }).saved
      = some { connector_id := "jira", name := "Jira", access := some "NEWA",
               refresh := some "R2", scope := some "read",
               expires_at := some 4570, extra := [] } ∧
    stored_cloud_id "t1"
      (ensure_valid_token_atlassian 5 1000 "t1" c4_db "jira" "Jira" none
        { status_code := 200, access_token := some "NEWA", refresh_token := some "R2",
          expires_in := some 3600, scope := some "read" }).db "jira" = none := by
  refine ⟨by decide, by decide, by decide⟩

/-- A credential record for tenant `"t2"` / connector `"jira"` whose stored
access and refresh ciphertexts are forged: their integrity tags do not verify
under the configured key 5. -/
def c7_db : DB := fun c i =>
  if c = tenant_collection_name "t2" "connectors" ∧ i = "jira" then
    some (Doc.conn
      { name := "Jira", tenant_id := "t2", status := "linked"
        oauth :=
          { access_token := some { body := [65, 66], tag := 0 }
            refresh_token := some { body := [67], tag := 1 }
            expires_at := some 99999
            scope := none }
        extra := [("cloud_id", "cloud-1")] })
  else none

/-- C7: when both stored ciphertexts of a credential record fail to decrypt
under the configured key, `decrypt_secret` yields the typed absent result
(`none`, never corrupted plaintext), and the `search` precondition phase
treats the credential as absent: it returns the `AUTH_REQUIRED` error payload
for any refresh response, instead of crashing or proceeding. -/
theorem C7_forged_blob_degrades_to_auth_required (key : Nat) (now : Int)
    (tenant_id : String) (db : DB) (resp : TokenResponse)
    (atok rtok : FernetToken)
    (doc : ConnDoc)
    (hdoc : db (tenant_collection_name tenant_id "connectors") "jira" = some (Doc.conn doc))
    (hat : doc.oauth.access_token = some atok)
    (hrt : doc.oauth.refresh_token = some rtok)
    (hfa : fernetDecrypt key atok = none)
    (hfr : fernetDecrypt key rtok = none) :
    decrypt_secret key (some atok) = none ∧
    decrypt_secret key (some rtok) = none ∧
    jira_search_auth key now tenant_id db resp = .errOut auth_required_error := by
  refine ⟨by simp [decrypt_secret, hfa], by simp [decrypt_secret, hfr], ?_⟩
  have hdec : get_decrypted_access key tenant_id db "jira" = (none, none, doc.oauth.expires_at) := by
    simp [get_decrypted_access, get_tokens, hdoc, hat, hrt, decrypt_secret, hfa, hfr]
  simp [jira_search_auth, ensure_valid_token_atlassian, hdec, strTruthy]

/-- Witness for C7 at the concrete forged record `c7_db` under key 5. -/
theorem C7_forged_blob_degrades_to_auth_required_witness :
    decrypt_secret 5 (some { body := [65, 66], tag := 0 }) = none ∧
    jira_search_auth 5 1000 "t2" c7_db { status_code := 200, access_token := some "X" }
      = .errOut auth_required_error := by
  have h := C7_forged_blob_degrades_to_auth_required 5 1000 "t2" c7_db
    { status_code := 200, access_token := some "X" }
    { body := [65, 66], tag := 0 } { body := [67], tag := 1 }
    { name := "Jira", tenant_id := "t2", status := "linked"
      oauth :=
        { access_token := some { body := [65, 66], tag := 0 }
          refresh_token := some { body := [67], tag := 1 }
          expires_at := some 99999
          scope := none }
      extra := [("cloud_id", "cloud-1")] }
    (by decide) (by decide) (by decide) (by decide) (by decide)
  exact ⟨h.1, h.2.2⟩

/-- C2: whenever the supplied `state` does not equal the `state` of a
still-present OAuth session for the (tenant, connector) — covering a missing
or already-consumed session and a never-issued state — `oauth_callback` fails
with the invalid-state `VALIDATION_ERROR` payload, performs no `save_tokens`
call, leaves the whole database (in particular the credential record)
unchanged, and deletes no session.  This holds for every verdict of the
`verify_csrf_state` format check. -/
theorem C2_callback_state_mismatch (key : Nat) (now : Int) (tenant_id : String)
    (verify : String → Bool) (db : DB) (connector_id name : String)
    (state : Option String) (resp : TokenResponse) (cloud : Option String)
    (hmismatch : ∀ st', stored_session_state tenant_id db connector_id = some st' →
      state ≠ some st') :
    (oauth_callback key now tenant_id verify db connector_id name state resp cloud).payload.status
      = "error" ∧
    (oauth_callback key now tenant_id verify db connector_id name state resp cloud).payload.code
      = some "VALIDATION_ERROR" ∧
    (oauth_callback key now tenant_id verify db connector_id name state resp cloud).saved = none ∧
    (∀ c i, (oauth_callback key now tenant_id verify db connector_id name state resp cloud).db c i
      = db c i) ∧
    (oauth_callback key now tenant_id verify db connector_id name state resp cloud).session_deleted
      = false := by
  by_cases h1 : (!strTruthy state || !verify (state.getD "")) = true
  · simp [oauth_callback, h1, validation_error, error_payload]
  · have h1' : (!strTruthy state || !verify (state.getD "")) = false := by
      simpa using h1
    have h2p : (strTruthy (stored_session_state tenant_id db connector_id) = false ∨
          ¬ stored_session_state tenant_id db connector_id = state) ∨
          strTruthy (stored_session_verifier tenant_id db connector_id) = false := by
      rcases hss : stored_session_state tenant_id db connector_id with _ | x
      · exact Or.inl (Or.inl rfl)
      · by_cases hx : x = ""
        · exact Or.inl (Or.inl (by simp [strTruthy, hx]))
        · exact Or.inl (Or.inr (Ne.symm (hmismatch x hss)))
    simp [oauth_callback, h1', validation_error, error_payload, if_pos h2p]

/-- Witness for C2: a stored session with state `"S1"` and a supplied state
`"S2"` at a concrete database. -/
def c2_db : DB := fun c i =>
  if c = tenant_collection_name "t3" "connectors" ∧ i = session_doc_id "jira" then
    some (Doc.sess { state := some "S1", code_verifier := some "ver", created_at := 0 })
  else none

/-- Witness for C2 at `c2_db`: the callback with the mismatching state
`"S2"` fails with `VALIDATION_ERROR` and leaves the credential key unchanged. -/
theorem C2_callback_state_mismatch_witness :
    (oauth_callback 5 1000 "t3" (fun _ => true) c2_db "jira" "Jira" (some "S2")
      { status_code := 200, access_token := some "A" } none).payload.code
      = some "VALIDATION_ERROR" ∧
    (oauth_callback 5 1000 "t3" (fun _ => true) c2_db "jira" "Jira" (some "S2")
      { status_code := 200, access_token := some "A" } none).db
      (tenant_collection_name "t3" "connectors") "jira"
      = c2_db (tenant_collection_name "t3" "connectors") "jira" := by
  have h := C2_callback_state_mismatch 5 1000 "t3" (fun _ => true) c2_db "jira" "Jira"
    (some "S2") { status_code := 200, access_token := some "A" } none
    (fun st' hst' => by
      have : stored_session_state "t3" c2_db "jira" = some "S1" := by decide
      rw [this] at hst'
      cases hst'
      decide)
  exact ⟨h.2.1, h.2.2.2.1 (tenant_collection_name "t3" "connectors") "jira"⟩

/-- Appending the same suffix to two strings preserves distinctness. -/
theorem string_append_right_cancel (s t u : String) (h : s ++ u = t ++ u) : s = t := by
  have h2 := congrArg String.data h
  simp [String.data_append] at h2
  exact String.ext h2

/-- The `<tenantId>__<collection>` naming convention separates tenants:
equal collection names for the same collection imply equal tenant ids. -/
theorem tenant_collection_name_injective (t1 t2 name : String)
    (h : tenant_collection_name t1 name = tenant_collection_name t2 name) : t1 = t2 := by
  unfold tenant_collection_name at h
  have h1 : t1 ++ "__" = t2 ++ "__" :=
    string_append_right_cancel (t1 ++ "__") (t2 ++ "__") name (by
      simpa [String.append_assoc] using h)
  exact string_append_right_cancel t1 t2 "__" h1

/-- A store operation by tenant `t` leaves every other collection untouched. -/
theorem run_op_preserves_other (key : Nat) (t : String) (db : DB) (op : StoreOp)
    (c : String) (hc : c ≠ tenant_collection_name t "connectors") (i : String) :
    (run_op key t db op).1 c i = db c i := by
  cases op with
  | save cid nm a r s e x => simp [run_op, save_tokens, db_upsert, hc]
  | get cid => rfl
  | del did => simp [run_op, db_delete, hc]

/-- A store operation by tenant `t` observes only `t`'s collection and
modifies it identically on two databases that agree there. -/
theorem run_op_obs_agree (key : Nat) (t : String) (db db' : DB) (op : StoreOp)
    (hagree : ∀ i, db (tenant_collection_name t "connectors") i
        = db' (tenant_collection_name t "connectors") i) :
    (run_op key t db op).2 = (run_op key t db' op).2 ∧
    (∀ i, (run_op key t db op).1 (tenant_collection_name t "connectors") i
        = (run_op key t db' op).1 (tenant_collection_name t "connectors") i) := by
  cases op with
  | save cid nm a r s e x =>
    refine ⟨rfl, fun i => ?_⟩
    simp only [run_op, save_tokens, db_upsert]
    split
    · rfl
    · exact hagree i
  | get cid =>
    exact ⟨by simp [run_op, get_tokens, hagree cid], fun i => hagree i⟩
  | del did =>
    refine ⟨rfl, fun i => ?_⟩
    simp only [run_op, db_delete]
    split
    · rfl
    · exact hagree i

/-- A sequence of store operations by tenant `t` leaves every other
collection untouched. -/
theorem run_ops_preserves_other (key : Nat) (t : String) (ops : List StoreOp) :
    ∀ (db : DB) (c : String), c ≠ tenant_collection_name t "connectors" →
    ∀ i, (run_ops key t db ops).1 c i = db c i := by
  induction ops with
  | nil => intro db c _ i; rfl
  | cons op rest ih =>
    intro db c hc i
    calc (run_ops key t db (op :: rest)).1 c i
        = (run_ops key t (run_op key t db op).1 rest).1 c i := rfl
      _ = (run_op key t db op).1 c i := ih (run_op key t db op).1 c hc i
      _ = db c i := run_op_preserves_other key t db op c hc i

/-- The observations of a sequence of store operations by tenant `t` depend
only on `t`'s collection. -/
theorem run_ops_obs_agree (key : Nat) (t : String) (ops : List StoreOp) :
    ∀ (db db' : DB), (∀ i, db (tenant_collection_name t "connectors") i
        = db' (tenant_collection_name t "connectors") i) →
    (run_ops key t db ops).2 = (run_ops key t db' ops).2 := by
  induction ops with
  | nil => intro db db' _; rfl
  | cons op rest ih =>
    intro db db' hagree
    have h := run_op_obs_agree key t db db' op hagree
    show (run_op key t db op).2 :: (run_ops key t (run_op key t db op).1 rest).2
        = (run_op key t db' op).2 :: (run_ops key t (run_op key t db' op).1 rest).2
    rw [h.1, ih (run_op key t db op).1 (run_op key t db' op).1 h.2]

/-- C3: every store operation sequence issued by tenant `t1` stays inside
`t1`'s tenant-scoped key space — for any distinct tenant `t2`, the run leaves
every record of `t2`'s collection exactly as it was, and the observations of
the run are identical on any two databases that agree on `t1`'s collection,
so nothing written by `t2` can be observed or modified by `t1`. -/
theorem C3_tenant_isolation (key : Nat) (t1 t2 : String) (hne : t1 ≠ t2)
    (ops : List StoreOp) (db db' : DB)
    (hagree : ∀ i, db (tenant_collection_name t1 "connectors") i
        = db' (tenant_collection_name t1 "connectors") i) :
    (∀ i, (run_ops key t1 db ops).1 (tenant_collection_name t2 "connectors") i
        = db (tenant_collection_name t2 "connectors") i) ∧
    (run_ops key t1 db ops).2 = (run_ops key t1 db' ops).2 := by
  have hcol : tenant_collection_name t2 "connectors" ≠ tenant_collection_name t1 "connectors" :=
    fun h => hne (tenant_collection_name_injective t2 t1 "connectors" h).symm
  exact ⟨fun i => run_ops_preserves_other key t1 ops db
      (tenant_collection_name t2 "connectors") hcol i,
    run_ops_obs_agree key t1 ops db db' hagree⟩

/-- Concrete operation sequence for the C3 witness: tenant saves tokens for
`"jira"` then reads them back. -/
def c3_ops : List StoreOp :=
  [StoreOp.save "jira" "Jira" (some "A") (some "R") (some "read") (some 100) none,
   StoreOp.get "jira"]

/-- Empty database for the C3 witness. -/
def c3_db : DB := fun _ _ => none

/-- Witness for C3: tenant `"a"` runs `c3_ops`; tenant `"b"`'s record space
is untouched and the observations repeat identically. -/
theorem C3_tenant_isolation_witness :
    (run_ops 1 "a" c3_db c3_ops).1 (tenant_collection_name "b" "connectors") "jira"
      = c3_db (tenant_collection_name "b" "connectors") "jira" ∧
    (run_ops 1 "a" c3_db c3_ops).2 = (run_ops 1 "a" c3_db c3_ops).2 := by
  have h := C3_tenant_isolation 1 "a" "b" (by decide) c3_ops c3_db c3_db (fun _ => rfl)
  exact ⟨h.1 "jira", h.2⟩

/-- Every 6-bit group maps into the URL-safe alphabet. -/
theorem b64c_mem : ∀ n, n < 64 → b64c n ∈ b64urlAlphabet := by
  decide

/-- The padding-stripped URL-safe base64 encoding of a byte list uses only
URL-safe alphabet characters. -/
theorem b64urlEncodeNoPad_mem (l : List Nat) (hl : ∀ b ∈ l, b < 256) :
    ∀ c ∈ b64urlEncodeNoPad l, c ∈ b64urlAlphabet := by
  induction l using b64urlEncodeNoPad.induct with
  | case1 =>
    intro c hc
    simp [b64urlEncodeNoPad] at hc
  | case2 b1 =>
    intro c hc
    have h1 := hl b1 (by simp)
    simp only [b64urlEncodeNoPad, List.mem_cons, List.not_mem_nil, or_false] at hc
    rcases hc with rfl | rfl
    · exact b64c_mem _ (by omega)
    · exact b64c_mem _ (by omega)
  | case3 b1 b2 =>
    intro c hc
    have h1 := hl b1 (by simp)
    have h2 := hl b2 (by simp)
    simp only [b64urlEncodeNoPad, List.mem_cons, List.not_mem_nil, or_false] at hc
    rcases hc with rfl | rfl | rfl
    · exact b64c_mem _ (by omega)
    · exact b64c_mem _ (by omega)
    · exact b64c_mem _ (by omega)
  | case4 b1 b2 b3 rest ih =>
    intro c hc
    have h1 := hl b1 (by simp)
    have h2 := hl b2 (by simp)
    have h3 := hl b3 (by simp)
    simp only [b64urlEncodeNoPad, List.mem_cons] at hc
    rcases hc with rfl | rfl | rfl | rfl | hc
    · exact b64c_mem _ (by omega)
    · exact b64c_mem _ (by omega)
    · exact b64c_mem _ (by omega)
    · exact b64c_mem _ (by omega)
    · exact ih (fun b hb => hl b (by simp [hb])) c hc

/-- C10: for the 40 random bytes `generate_pkce` draws, the produced bundle
has method `"S256"`, a verifier that is the URL-safe (alphabet-only) encoding
of those 40 bytes — i.e. of 320 ≥ 256 bits of random data — and a challenge
equal to the padding-stripped URL-safe base64 of the SHA-256 digest of the
verifier. -/
theorem C10_generate_pkce (sha256 : List Nat → List Nat) (rand : List Nat)
    (hlen : rand.length = 40) (hbytes : ∀ b ∈ rand, b < 256) :
    (generate_pkce sha256 rand).method = "S256" ∧
    (generate_pkce sha256 rand).verifier = String.mk (b64urlEncodeNoPad rand) ∧
    256 ≤ 8 * rand.length ∧
    (∀ c ∈ (generate_pkce sha256 rand).verifier.toList, c ∈ b64urlAlphabet) ∧
    (generate_pkce sha256 rand).challenge
      = String.mk (b64urlEncodeNoPad (sha256 (strBytes (generate_pkce sha256 rand).verifier))) := by
  refine ⟨rfl, rfl, by omega, ?_, rfl⟩
  intro c hc
  exact b64urlEncodeNoPad_mem rand hbytes c hc

/-- Witness for C10 at a concrete 40-byte random value and a fixed digest
function standing in for SHA-256. -/
theorem C10_generate_pkce_witness :
    (generate_pkce (fun _ => List.replicate 32 0) (List.replicate 40 7)).method = "S256" ∧
    256 ≤ 8 * (List.replicate 40 (7 : Nat)).length ∧
    (generate_pkce (fun _ => List.replicate 32 0) (List.replicate 40 7)).challenge
      = String.mk (b64urlEncodeNoPad ((fun _ => List.replicate 32 0)
          (strBytes (generate_pkce (fun _ => List.replicate 32 0)
            (List.replicate 40 7)).verifier))) := by
  have h := C10_generate_pkce (fun _ => List.replicate 32 0) (List.replicate 40 7)
    (by decide) (by decide)
  exact ⟨h.1, h.2.2.1, h.2.2.2.2⟩

end UCB
